import Mathlib

/-!
Verification of the face-detail restoration script (`scripts/face-details.py`).

The script orchestrates face detection and localized inpainting: it asks an
external YOLO detector for face boxes, builds a rectangular binary mask per
detection, filters detections by relative size, temporarily retypes the shared
generation context into an img2img variant, runs one external inpainting pass
per accepted face while threading each pass's output into the next pass's
input, and finally restores the context and the process-wide overlay option.

The embedding below translates the script's pure computations (mask drawing,
relative-size computation, the size filter) and its stateful orchestration
(`FaceRestorerYolo.restore`) into Lean.  External collaborators — the detector
itself and the diffusion pipeline `process_images_inner` — are passed in as
parameters: the detector's output as a list of `YoLoResult`, the pipeline as an
oracle mapping the invocation index to its outcome, where an `Except.error`
outcome models the pipeline raising an exception.  Machine floats in the
script appear only as sizes, scores and threshold constants compared with
`<`/`>`; they are modelled as rationals.
-/

/-- A PIL image: a single-channel pixel raster with its dimensions.  Pixel
rows are stored top to bottom; pixel values are bytes (`255` = white). -/
structure PILImage where
  width : Nat
  height : Nat
  pixels : List (List Nat)
deriving DecidableEq, Repr, Inhabited

/-- `Image.new('L', (w, h), color)`: a fresh single-channel canvas filled
with a constant color. -/
def imageNew (w h : Nat) (color : Nat) : PILImage :=
  ⟨w, h, List.replicate h (List.replicate w color)⟩

/-- A detector bounding box `[x_min, y_min, x_max, y_max]`, coordinates
truncated to integers (`boxes.xyxy.int()` in the script). -/
structure Box where
  x0 : Int
  y0 : Int
  x1 : Int
  y1 : Int
deriving DecidableEq, Repr, Inhabited

/-- Pixel lookup: row `y`, column `x`; out-of-range reads 0 (only in-range
pixels are ever meaningful). -/
def getPixel (img : PILImage) (x y : Nat) : Nat :=
  (img.pixels.getD y []).getD x 0

/-- `ImageDraw.Draw(img).rectangle(box, fill="white", outline=None, width=0)`:
fills the axis-aligned rectangle, both borders inclusive (PIL's rectangle
includes both corner pixels), with 255, leaving every other pixel as it was. -/
def drawRectangle (img : PILImage) (b : Box) : PILImage :=
  ⟨img.width, img.height,
    (List.range img.height).map fun (y : Nat) =>
      (List.range img.width).map fun (x : Nat) =>
        if b.x0 ≤ (x : Int) ∧ (x : Int) ≤ b.x1 ∧ b.y0 ≤ (y : Int) ∧ (y : Int) ≤ b.y1
        then 255 else getPixel img x y⟩

/-- The mask-building steps of `FaceRestorerYolo.predict`:

    mask_image = image.copy()
    mask_image = Image.new('L', image.size, 0)
    draw = ImageDraw.Draw(mask_image)
    draw.rectangle(box, fill="white", outline=None, width=0)

The initial copy of the source image is immediately shadowed by the fresh
all-zero canvas and therefore discarded unread. -/
def predictMask (image : PILImage) (box : Box) : PILImage :=
  let _mask_image := image
  let mask_image := imageNew image.width image.height 0
  drawRectangle mask_image box

/-- `size = (box[2] - box[0]) * (box[3] - box[1]) / (image.width * image.height)`
from `FaceRestorerYolo.predict`: box area over source-image area. -/
def relativeSize (b : Box) (w h : Nat) : ℚ :=
  (((b.x1 - b.x0) * (b.y1 - b.y0) : Int) : ℚ) / ((w : ℚ) * (h : ℚ))

theorem getPixel_imageNew (w h color x y : Nat) (hx : x < w) (hy : y < h) :
    getPixel (imageNew w h color) x y = color := by
  simp [getPixel, imageNew, List.getD, hx, hy]

theorem getPixel_drawRectangle (img : PILImage) (b : Box) (x y : Nat)
    (hx : x < img.width) (hy : y < img.height) :
    getPixel (drawRectangle img b) x y =
      if b.x0 ≤ (x : Int) ∧ (x : Int) ≤ b.x1 ∧ b.y0 ≤ (y : Int) ∧ (y : Int) ≤ b.y1
      then 255 else getPixel img x y := by
  simp [getPixel, drawRectangle, List.getD, List.getElem?_map, List.getElem?_range, hx, hy]

/-- C8: for every image size and every box with `x_min < x_max` and
`y_min < y_max`, the mask built during detection is a single-channel canvas of
exactly the source image's dimensions whose pixels are 0 everywhere outside the
box and 255 at every pixel inside the box including its border, with no
intermediate values. -/
theorem predictMask_pixels (img : PILImage) (b : Box) (x y : Nat)
    (hx : x < img.width) (hy : y < img.height)
    (hbx : b.x0 < b.x1) (hby : b.y0 < b.y1) :
    (predictMask img b).width = img.width ∧
    (predictMask img b).height = img.height ∧
    getPixel (predictMask img b) x y =
      (if b.x0 ≤ (x : Int) ∧ (x : Int) ≤ b.x1 ∧ b.y0 ≤ (y : Int) ∧ (y : Int) ≤ b.y1
       then 255 else 0) ∧
    (getPixel (predictMask img b) x y = 0 ∨ getPixel (predictMask img b) x y = 255) := by
  have hw : (predictMask img b).width = img.width := rfl
  have hh : (predictMask img b).height = img.height := rfl
  have hpx : getPixel (predictMask img b) x y =
      if b.x0 ≤ (x : Int) ∧ (x : Int) ≤ b.x1 ∧ b.y0 ≤ (y : Int) ∧ (y : Int) ≤ b.y1
      then 255 else 0 := by
    show getPixel (drawRectangle (imageNew img.width img.height 0) b) x y = _
    rw [getPixel_drawRectangle (imageNew img.width img.height 0) b x y hx hy]
    rw [getPixel_imageNew img.width img.height 0 x y hx hy]
  refine ⟨hw, hh, hpx, ?_⟩
  rw [hpx]
  split
  · exact Or.inr rfl
  · exact Or.inl rfl

theorem predictMask_pixels_witness :
    (2 < 4 ∧ 1 < 3 ∧ (1 : Int) < 2 ∧ (1 : Int) < 2) ∧
    ((predictMask ⟨4, 3, [[1,2,3,4],[5,6,7,8],[9,10,11,12]]⟩ ⟨1,1,2,2⟩).width = 4 ∧
     (predictMask ⟨4, 3, [[1,2,3,4],[5,6,7,8],[9,10,11,12]]⟩ ⟨1,1,2,2⟩).height = 3 ∧
     getPixel (predictMask ⟨4, 3, [[1,2,3,4],[5,6,7,8],[9,10,11,12]]⟩ ⟨1,1,2,2⟩) 2 1 =
       (if (1 : Int) ≤ (2 : Nat) ∧ ((2 : Nat) : Int) ≤ 2 ∧ (1 : Int) ≤ (1 : Nat) ∧ ((1 : Nat) : Int) ≤ 2
        then 255 else 0) ∧
     (getPixel (predictMask ⟨4, 3, [[1,2,3,4],[5,6,7,8],[9,10,11,12]]⟩ ⟨1,1,2,2⟩) 2 1 = 0 ∨
      getPixel (predictMask ⟨4, 3, [[1,2,3,4],[5,6,7,8],[9,10,11,12]]⟩ ⟨1,1,2,2⟩) 2 1 = 255)) :=
  ⟨⟨by decide, by decide, by decide, by decide⟩,
   predictMask_pixels ⟨4, 3, [[1,2,3,4],[5,6,7,8],[9,10,11,12]]⟩ ⟨1,1,2,2⟩ 2 1
     (by decide) (by decide) (by decide) (by decide)⟩

/-- C10: the mask constructed by `predict` depends only on the source image's
dimensions and the box, never on the image's pixel content — the initial pixel
copy of the image is discarded before drawing. -/
theorem predictMask_content_independent (img1 img2 : PILImage) (b : Box)
    (hw : img1.width = img2.width) (hh : img1.height = img2.height) :
    predictMask img1 b = predictMask img2 b := by
  show drawRectangle (imageNew img1.width img1.height 0) b =
    drawRectangle (imageNew img2.width img2.height 0) b
  rw [hw, hh]

theorem predictMask_content_independent_witness :
    ((⟨2, 2, [[9,9],[9,9]]⟩ : PILImage).width = (⟨2, 2, [[0,1],[2,3]]⟩ : PILImage).width ∧
     (⟨2, 2, [[9,9],[9,9]]⟩ : PILImage).height = (⟨2, 2, [[0,1],[2,3]]⟩ : PILImage).height) ∧
    predictMask ⟨2, 2, [[9,9],[9,9]]⟩ ⟨0,0,1,0⟩ = predictMask ⟨2, 2, [[0,1],[2,3]]⟩ ⟨0,0,1,0⟩ :=
  ⟨⟨by decide, by decide⟩,
   predictMask_content_independent ⟨2, 2, [[9,9],[9,9]]⟩ ⟨2, 2, [[0,1],[2,3]]⟩ ⟨0,0,1,0⟩
     (by decide) (by decide)⟩

/-- C9: for every detection whose truncated box satisfies the data-model box
invariant (`0 ≤ x_min < x_max ≤ width`, `0 ≤ y_min < y_max ≤ height`) on an
image of positive area, the computed `relativeSize` lies in `(0, 1]`. -/
theorem relativeSize_in_unit_interval (b : Box) (w h : Nat)
    (hw : 0 < w) (hh : 0 < h)
    (hx0 : 0 ≤ b.x0) (hx : b.x0 < b.x1) (hx1 : b.x1 ≤ (w : Int))
    (hy0 : 0 ≤ b.y0) (hy : b.y0 < b.y1) (hy1 : b.y1 ≤ (h : Int)) :
    0 < relativeSize b w h ∧ relativeSize b w h ≤ 1 := by
  have hwq : (0 : ℚ) < (w : ℚ) * (h : ℚ) := by
    have hq1 : (0 : ℚ) < (w : ℚ) := by exact_mod_cast hw
    have hq2 : (0 : ℚ) < (h : ℚ) := by exact_mod_cast hh
    exact mul_pos hq1 hq2
  have hnum : (0 : Int) < (b.x1 - b.x0) * (b.y1 - b.y0) := by
    have h1 : (0 : Int) < b.x1 - b.x0 := by omega
    have h2 : (0 : Int) < b.y1 - b.y0 := by omega
    exact mul_pos h1 h2
  unfold relativeSize
  constructor
  · apply div_pos _ hwq
    exact_mod_cast hnum
  · rw [div_le_one hwq]
    have hb : (b.x1 - b.x0) * (b.y1 - b.y0) ≤ (w : Int) * (h : Int) := by
      have h1 : b.x1 - b.x0 ≤ (w : Int) := by omega
      have h2 : b.y1 - b.y0 ≤ (h : Int) := by omega
      have h3 : (0 : Int) ≤ b.x1 - b.x0 := by omega
      have h4 : (0 : Int) ≤ (w : Int) := by positivity
      exact mul_le_mul h1 h2 (by omega) h4
    calc (((b.x1 - b.x0) * (b.y1 - b.y0) : Int) : ℚ)
        ≤ (((w : Int) * (h : Int) : Int) : ℚ) := by exact_mod_cast hb
      _ = (w : ℚ) * (h : ℚ) := by push_cast; ring

theorem relativeSize_in_unit_interval_witness :
    (0 < 4 ∧ 0 < 4 ∧ (0 : Int) ≤ 0 ∧ (0 : Int) < 2 ∧ (2 : Int) ≤ ((4 : Nat) : Int) ∧
     (0 : Int) ≤ 0 ∧ (0 : Int) < 2 ∧ (2 : Int) ≤ ((4 : Nat) : Int)) ∧
    (0 < relativeSize ⟨0,0,2,2⟩ 4 4 ∧ relativeSize ⟨0,0,2,2⟩ 4 4 ≤ 1) :=
  ⟨⟨by decide, by decide, by decide, by decide, by decide, by decide, by decide, by decide⟩,
   relativeSize_in_unit_interval ⟨0,0,2,2⟩ 4 4 (by decide) (by decide) (by decide)
     (by decide) (by decide) (by decide) (by decide) (by decide)⟩

/-- A detection produced by `FaceRestorerYolo.predict` (the `YoLoResult`
class): confidence score, truncated box, optional mask image, relative size. -/
structure YoLoResult where
  score : ℚ
  box : Box
  mask : Option PILImage
  size : ℚ
deriving DecidableEq, Repr

/-- The runtime class tag of the processing context (`p.__class__`); `restore`
switches it to `StableDiffusionProcessingImg2Img` and back. -/
inductive PClass where
  | txt2img
  | img2img
  | otherClass
deriving DecidableEq, Repr

/-- The attribute dictionary (`p.__dict__`) of the processing context,
restricted to the attributes the script reads or writes; `extra` stands for
every remaining attribute, which the script never touches individually but
snapshots and restores wholesale.  `facehires` models the guard attribute,
absent encoded as `false` (`hasattr(p, 'facehires')`). -/
structure PFields where
  facehires : Bool := false
  init_images : List Nat := []
  image_mask : List PILImage := []
  inpaint_full_res : Bool := false
  inpainting_mask_invert : Nat := 0
  inpainting_fill : Nat := 0
  denoising_strength : Option ℚ := none
  mask_blur : Nat := 0
  inpaint_full_res_padding : Nat := 0
  restore_faces : Bool := false
  overlay_images : Option (List Nat) := none
  extra : Nat := 0
deriving DecidableEq, Repr, Inhabited

/-- The shared processing context: its runtime class tag and its attributes. -/
structure PContext where
  cls : PClass
  fields : PFields
deriving DecidableEq, Repr

/-- Process-wide options (`shared.opts`): the `mask_apply_overlay` flag the
script saves, forces and restores, plus `extra` for every other option. -/
structure Opts where
  mask_apply_overlay : Bool
  extra : Nat
deriving DecidableEq, Repr

/-- The pipeline's result object (what `processing.process_images_inner`
returns): its `images` attribute, which may itself be `None`. -/
structure Processed where
  images : Option (List Nat)
deriving DecidableEq, Repr

/-- Modelled from the spec: `processing_class.switch_class` is imported from
`modules.processing_class`, which is not part of this source tree.  Per §4.4
of the spec, switching without a field dictionary converts the context's
variant "preserving all pre-existing field values not explicitly overwritten",
and switching back with the snapshot dictionary re-applies "all original field
values ... (full overwrite from the snapshot, not a merge)". -/
def switch_class (p : PContext) (cls : PClass) (fieldsDict : Option PFields) : PContext :=
  match fieldsDict with
  | none => { p with cls := cls }
  | some fs => { cls := cls, fields := fs }

/-- The mutable locals of the per-face loop in `restore`: the working image,
the context `p`, the last pipeline result `pp`, and the record of pipeline
invocations (the context's fields at each call, in call order). -/
structure LoopState where
  image : Nat
  p : PContext
  pp : Option Processed
  calls : List PFields
deriving DecidableEq, Repr

/-- One pipeline invocation produces a `Processed` object or `None`, or raises
an exception (`Except.error`); the oracle maps the 0-based invocation index to
the outcome of `process_images_inner` on that call. -/
def PipeOracle : Type := Nat → Except Unit (Option Processed)

/-- The `for face in faces:` loop of `FaceRestorerYolo.restore`: skip a face
with no mask; skip a face whose `size` is `< 0.0002` or `> 0.8`; otherwise set
the inpainting fields on `p`, invoke the pipeline, clear `overlay_images`, and
advance the working image to the invocation's first output image when there is
one.  A pipeline exception aborts the loop, carrying the state at the moment
of the raise. -/
def faceHiresLoop (oracle : PipeOracle) (origDenoise : Option ℚ) :
    List YoLoResult → LoopState → Except LoopState LoopState
  | [], st => .ok st
  | face :: rest, st =>
    match face.mask with
    | none => faceHiresLoop oracle origDenoise rest st
    | some m =>
      if face.size < 1/5000 ∨ face.size > 4/5 then
        faceHiresLoop oracle origDenoise rest st
      else
        let fs : PFields :=
          { st.p.fields with
            init_images := [st.image],
            image_mask := [m],
            inpaint_full_res := true,
            inpainting_mask_invert := 0,
            inpainting_fill := 1,
            denoising_strength := some (origDenoise.getD (3/10)),
            mask_blur := 10,
            inpaint_full_res_padding := 15,
            restore_faces := true }
        let p1 : PContext := { st.p with fields := fs }
        let calls := st.calls ++ [fs]
        match oracle st.calls.length with
        | .error _ => .error ⟨st.image, p1, st.pp, calls⟩
        | .ok pp1 =>
          let p2 : PContext := { p1 with fields := { fs with overlay_images := none } }
          let image1 :=
            match pp1 with
            | some pr =>
              match pr.images with
              | some (a :: _) => a
              | _ => st.image
            | none => st.image
          faceHiresLoop oracle origDenoise rest ⟨image1, p2, pp1, calls⟩

deriving instance DecidableEq for Except

/-- Everything observable about one call of `FaceRestorerYolo.restore`: the
returned value (`Except.error` when a pipeline exception propagates out), the
context and the process-wide options after the call, the recorded pipeline
invocations, and whether the model-load error was logged. -/
structure RestoreResult where
  ret : Except Unit (Option Nat)
  p : PContext
  opts : Opts
  calls : List PFields
  loggedError : Bool
deriving DecidableEq, Repr

/-- `FaceRestorerYolo.restore(np_image, p)`.  The detector's output `faces`
(what `self.predict` returns) and the model-load outcome `modelLoaded`
(whether `self.model` is non-`None` after `self.load()`) are parameters,
because the detector and the model loader are external collaborators; the
pipeline is the `oracle`.  Arrays and PIL images are identified by `Nat` ids
(`Image.fromarray` and `np.array` preserve content). -/
def restore (np_image : Option Nat) (p : PContext) (opts : Opts)
    (modelLoaded : Bool) (faces : List YoLoResult) (oracle : PipeOracle) :
    RestoreResult :=
  if np_image.isNone || p.fields.facehires then
    ⟨.ok np_image, p, opts, [], false⟩
  else if !modelLoaded then
    ⟨.ok np_image, p, opts, [], true⟩
  else
    let image := np_image.getD 0
    if faces.length = 0 then
      ⟨.ok np_image, p, opts, [], false⟩
    else
      let orig_apply_overlay := opts.mask_apply_overlay
      let orig_p := p.fields
      let orig_cls := p.cls
      let p1 : PContext := { p with fields := { p.fields with facehires := true } }
      let opts1 : Opts := { opts with mask_apply_overlay := true }
      let p2 := switch_class p1 PClass.img2img none
      match faceHiresLoop oracle orig_p.denoising_strength faces ⟨image, p2, none, []⟩ with
      | .error st => ⟨.error (), st.p, opts1, st.calls, false⟩
      | .ok st =>
        let p3 := switch_class st.p orig_cls (some orig_p)
        let opts2 : Opts := { opts1 with mask_apply_overlay := orig_apply_overlay }
        match st.pp with
        | some pr =>
          match pr.images with
          | some (a :: _) => ⟨.ok (some a), p3, opts2, st.calls, false⟩
          | _ => ⟨.ok np_image, p3, opts2, st.calls, false⟩
        | none => ⟨.ok np_image, p3, opts2, st.calls, false⟩

/-- C5: if the recursion guard (`facehires`) is already set on the context,
`restore` returns the input image unchanged without raising, performs zero
pipeline invocations, and modifies neither the context nor the process-wide
options. -/
theorem restore_reentrancy_guard (np_image : Option Nat) (p : PContext)
    (opts : Opts) (modelLoaded : Bool) (faces : List YoLoResult)
    (oracle : PipeOracle) (hg : p.fields.facehires = true) :
    restore np_image p opts modelLoaded faces oracle =
      ⟨.ok np_image, p, opts, [], false⟩ := by
  unfold restore
  rw [hg]
  simp

theorem restore_reentrancy_guard_witness :
    ((⟨PClass.txt2img, { facehires := true }⟩ : PContext).fields.facehires = true) ∧
    restore (some 7) ⟨PClass.txt2img, { facehires := true }⟩ ⟨false, 3⟩ true []
        (fun _ => Except.ok none) =
      ⟨.ok (some 7), ⟨PClass.txt2img, { facehires := true }⟩, ⟨false, 3⟩, [], false⟩ :=
  ⟨rfl, restore_reentrancy_guard (some 7) ⟨PClass.txt2img, { facehires := true }⟩
    ⟨false, 3⟩ true [] (fun _ => Except.ok none) rfl⟩

/-- C6: if model loading fails (the model is still unavailable after
`self.load()`), `restore` returns the original image unchanged without
raising, logs an error, performs zero pipeline invocations, and leaves the
context and the process-wide options untouched. -/
theorem restore_model_unavailable (i : Nat) (p : PContext) (opts : Opts)
    (faces : List YoLoResult) (oracle : PipeOracle)
    (hg : p.fields.facehires = false) :
    restore (some i) p opts false faces oracle =
      ⟨.ok (some i), p, opts, [], true⟩ := by
  unfold restore
  rw [hg]
  simp

theorem restore_model_unavailable_witness :
    ((⟨PClass.txt2img, {}⟩ : PContext).fields.facehires = false) ∧
    restore (some 7) ⟨PClass.txt2img, {}⟩ ⟨true, 9⟩ false [] (fun _ => Except.ok none) =
      ⟨.ok (some 7), ⟨PClass.txt2img, {}⟩, ⟨true, 9⟩, [], true⟩ :=
  ⟨rfl, restore_model_unavailable 7 ⟨PClass.txt2img, {}⟩ ⟨true, 9⟩ []
    (fun _ => Except.ok none) rfl⟩

/-- C7: if the detector returns zero detections, `restore` returns the
original image, performs zero pipeline invocations, does not set the recursion
guard, and leaves the context and the process-wide options unmodified. -/
theorem restore_zero_detections (i : Nat) (p : PContext) (opts : Opts)
    (oracle : PipeOracle) (hg : p.fields.facehires = false) :
    restore (some i) p opts true [] oracle = ⟨.ok (some i), p, opts, [], false⟩ ∧
    (restore (some i) p opts true [] oracle).p.fields.facehires = false := by
  have h1 : restore (some i) p opts true [] oracle = ⟨.ok (some i), p, opts, [], false⟩ := by
    unfold restore
    rw [hg]
    simp
  exact ⟨h1, by rw [h1]; exact hg⟩

theorem restore_zero_detections_witness :
    ((⟨PClass.otherClass, {}⟩ : PContext).fields.facehires = false) ∧
    (restore (some 5) ⟨PClass.otherClass, {}⟩ ⟨false, 1⟩ true [] (fun _ => Except.error ()) =
       ⟨.ok (some 5), ⟨PClass.otherClass, {}⟩, ⟨false, 1⟩, [], false⟩ ∧
     (restore (some 5) ⟨PClass.otherClass, {}⟩ ⟨false, 1⟩ true []
        (fun _ => Except.error ())).p.fields.facehires = false) :=
  ⟨rfl, restore_zero_detections 5 ⟨PClass.otherClass, {}⟩ ⟨false, 1⟩
    (fun _ => Except.error ()) rfl⟩

/-- C3 (amended): a detection with a mask present is processed iff its
relative size is at least 0.0002 and at most 0.8 — both bounds inclusive.
The script's test is `size < 0.0002 or size > 0.8`, so exactly 0.0002 is
accepted, 0.00021 is accepted, exactly 0.8 is accepted, 0.80001 is
rejected. -/
theorem restore_filter_boundary (o : Nat) (p : PContext) (opts : Opts)
    (s : ℚ) (b : Box) (m : PILImage) (q : ℚ) (oracle : PipeOracle)
    (hg : p.fields.facehires = false) :
    (restore (some o) p opts true [⟨s, b, some m, q⟩] oracle).calls.length
      = if 1/5000 ≤ q ∧ q ≤ 4/5 then 1 else 0 := by
  have e5000 : (5000 : ℚ)⁻¹ = 1/5000 := by norm_num
  by_cases hq : q < 1/5000 ∨ q > 4/5
  · have hq' : ¬(1/5000 ≤ q ∧ q ≤ 4/5) := by
      rintro ⟨h1, h2⟩
      rcases hq with h | h <;> linarith
    have hqn : q < (5000 : ℚ)⁻¹ ∨ 4/5 < q := by rw [e5000]; exact hq
    rw [if_neg hq']
    simp [restore, faceHiresLoop, hg, hqn]
  · have hq' : 1/5000 ≤ q ∧ q ≤ 4/5 := by
      push_neg at hq
      exact hq
    have hqn : ¬(q < (5000 : ℚ)⁻¹ ∨ 4/5 < q) := by rw [e5000]; exact hq
    rw [if_pos hq']
    rcases h0 : oracle 0 with e | pp1
    · simp [restore, faceHiresLoop, hg, hqn, h0]
    · rcases pp1 with _ | ⟨_ | ⟨a, t⟩⟩ <;> simp [restore, faceHiresLoop, hg, hqn, h0]

theorem restore_filter_boundary_witness :
    ((⟨PClass.txt2img, {}⟩ : PContext).fields.facehires = false) ∧
    (restore (some 3) ⟨PClass.txt2img, {}⟩ ⟨false, 0⟩ true
        [⟨9/10, ⟨1,1,2,2⟩, some (imageNew 2 2 0), 1/5000⟩]
        (fun _ => Except.ok none)).calls.length
      = if 1/5000 ≤ (1/5000 : ℚ) ∧ (1/5000 : ℚ) ≤ 4/5 then 1 else 0 :=
  ⟨rfl, restore_filter_boundary 3 ⟨PClass.txt2img, {}⟩ ⟨false, 0⟩ (9/10) ⟨1,1,2,2⟩
    (imageNew 2 2 0) (1/5000) (fun _ => Except.ok none) rfl⟩

/-- A run of `restore` with one accepted face of relative size exactly 0.0002
(= 1/5000) and a mask present. -/
def sizeBoundaryRun : RestoreResult :=
  restore (some 7) ⟨PClass.txt2img, {}⟩ ⟨false, 0⟩ true
    [⟨9/10, ⟨1,1,2,2⟩, some (imageNew 2 2 0), 1/5000⟩] (fun _ => Except.ok none)

/-- C3's counterexample: a detection with mask present and relative size
exactly 0.0002 is processed — the pipeline is invoked once for it — whereas
the claim says a relative size of exactly 0.0002 is rejected. -/
theorem sizeBoundaryRun_processed : sizeBoundaryRun.calls.length = 1 := by
  norm_num [sizeBoundaryRun, restore, faceHiresLoop]

/-- C4: with exactly two accepted detections (masks present, sizes within the
filter bounds), the pipeline is invoked exactly twice; the first invocation's
configured input image (`init_images`) is the original, and the second
invocation's is the first invocation's first output image, not the
original. -/
theorem restore_sequential_chaining (o y : Nat) (rest : List Nat)
    (p : PContext) (opts : Opts) (s1 s2 : ℚ) (b1 b2 : Box) (m1 m2 : PILImage)
    (q1 q2 : ℚ) (oracle : PipeOracle)
    (hg : p.fields.facehires = false)
    (hq1 : 1/5000 ≤ q1) (hq1' : q1 ≤ 4/5)
    (hq2 : 1/5000 ≤ q2) (hq2' : q2 ≤ 4/5)
    (h0 : oracle 0 = .ok (some ⟨some (y :: rest)⟩)) :
    (restore (some o) p opts true [⟨s1, b1, some m1, q1⟩, ⟨s2, b2, some m2, q2⟩]
        oracle).calls.length = 2 ∧
    ((restore (some o) p opts true [⟨s1, b1, some m1, q1⟩, ⟨s2, b2, some m2, q2⟩]
        oracle).calls.getD 0 default).init_images = [o] ∧
    ((restore (some o) p opts true [⟨s1, b1, some m1, q1⟩, ⟨s2, b2, some m2, q2⟩]
        oracle).calls.getD 1 default).init_images = [y] := by
  have e5000 : (5000 : ℚ)⁻¹ = 1/5000 := by norm_num
  have hn1 : ¬(q1 < (5000 : ℚ)⁻¹ ∨ 4/5 < q1) := by
    rw [e5000]; rintro (h | h) <;> linarith
  have hn2 : ¬(q2 < (5000 : ℚ)⁻¹ ∨ 4/5 < q2) := by
    rw [e5000]; rintro (h | h) <;> linarith
  rcases h1 : oracle 1 with e | pp2
  · simp [restore, faceHiresLoop, hg, hn1, hn2, h0, h1,
      List.getD_cons_zero, List.getD_cons_succ]
  · rcases pp2 with _ | ⟨_ | ⟨a, t⟩⟩ <;>
      simp [restore, faceHiresLoop, hg, hn1, hn2, h0, h1,
        List.getD_cons_zero, List.getD_cons_succ]

theorem restore_sequential_chaining_witness :
    ((⟨PClass.txt2img, {}⟩ : PContext).fields.facehires = false ∧
     (1/5000 : ℚ) ≤ 1/100 ∧ (1/100 : ℚ) ≤ 4/5 ∧
     (fun n => if n = 0 then Except.ok (some (⟨some [42]⟩ : Processed))
               else Except.ok none : PipeOracle) 0
       = Except.ok (some ⟨some (42 :: [])⟩)) ∧
    ((restore (some 7) ⟨PClass.txt2img, {}⟩ ⟨false, 0⟩ true
        [⟨9/10, ⟨1,1,2,2⟩, some (imageNew 2 2 0), 1/100⟩,
         ⟨8/10, ⟨0,0,1,1⟩, some (imageNew 2 2 0), 1/100⟩]
        (fun n => if n = 0 then Except.ok (some ⟨some [42]⟩)
                  else Except.ok none)).calls.length = 2 ∧
     ((restore (some 7) ⟨PClass.txt2img, {}⟩ ⟨false, 0⟩ true
        [⟨9/10, ⟨1,1,2,2⟩, some (imageNew 2 2 0), 1/100⟩,
         ⟨8/10, ⟨0,0,1,1⟩, some (imageNew 2 2 0), 1/100⟩]
        (fun n => if n = 0 then Except.ok (some ⟨some [42]⟩)
                  else Except.ok none)).calls.getD 0 default).init_images = [7] ∧
     ((restore (some 7) ⟨PClass.txt2img, {}⟩ ⟨false, 0⟩ true
        [⟨9/10, ⟨1,1,2,2⟩, some (imageNew 2 2 0), 1/100⟩,
         ⟨8/10, ⟨0,0,1,1⟩, some (imageNew 2 2 0), 1/100⟩]
        (fun n => if n = 0 then Except.ok (some ⟨some [42]⟩)
                  else Except.ok none)).calls.getD 1 default).init_images = [42]) :=
  ⟨⟨rfl, by norm_num, by norm_num, rfl⟩,
   restore_sequential_chaining 7 42 [] ⟨PClass.txt2img, {}⟩ ⟨false, 0⟩ (9/10) (8/10)
     ⟨1,1,2,2⟩ ⟨0,0,1,1⟩ (imageNew 2 2 0) (imageNew 2 2 0) (1/100) (1/100)
     (fun n => if n = 0 then Except.ok (some ⟨some [42]⟩) else Except.ok none)
     rfl (by norm_num) (by norm_num) (by norm_num) (by norm_num) rfl⟩

/-- C2 (amended): with two accepted detections and no exception, the returned
image is the first output image of the final pipeline invocation when that
invocation produced output, and otherwise the original input image — even
when an earlier invocation produced output.  An intermediate pass's output is
used only as the next pass's input, never as the overall result. -/
theorem restore_returns_final_pass_output (o x : Nat) (l : List Nat)
    (p : PContext) (opts : Opts) (s1 s2 : ℚ) (b1 b2 : Box) (m1 m2 : PILImage)
    (q1 q2 : ℚ) (oracle : PipeOracle)
    (hg : p.fields.facehires = false)
    (hq1 : 1/5000 ≤ q1) (hq1' : q1 ≤ 4/5)
    (hq2 : 1/5000 ≤ q2) (hq2' : q2 ≤ 4/5)
    (h0 : oracle 0 = .ok (some ⟨some [x]⟩))
    (h1 : oracle 1 = .ok (some ⟨some l⟩)) :
    (restore (some o) p opts true [⟨s1, b1, some m1, q1⟩, ⟨s2, b2, some m2, q2⟩]
        oracle).ret = .ok (some (l.headD o)) ∧
    (restore (some o) p opts true [⟨s1, b1, some m1, q1⟩, ⟨s2, b2, some m2, q2⟩]
        oracle).calls.length = 2 := by
  have e5000 : (5000 : ℚ)⁻¹ = 1/5000 := by norm_num
  have hn1 : ¬(q1 < (5000 : ℚ)⁻¹ ∨ 4/5 < q1) := by
    rw [e5000]; rintro (h | h) <;> linarith
  have hn2 : ¬(q2 < (5000 : ℚ)⁻¹ ∨ 4/5 < q2) := by
    rw [e5000]; rintro (h | h) <;> linarith
  rcases l with _ | ⟨a, t⟩ <;> simp [restore, faceHiresLoop, hg, hn1, hn2, h0, h1]

theorem restore_returns_final_pass_output_witness :
    ((⟨PClass.txt2img, {}⟩ : PContext).fields.facehires = false ∧
     (1/5000 : ℚ) ≤ 1/100 ∧ (1/100 : ℚ) ≤ 4/5) ∧
    ((restore (some 7) ⟨PClass.txt2img, {}⟩ ⟨false, 0⟩ true
        [⟨9/10, ⟨1,1,2,2⟩, some (imageNew 2 2 0), 1/100⟩,
         ⟨8/10, ⟨0,0,1,1⟩, some (imageNew 2 2 0), 1/100⟩]
        (fun n => if n = 0 then Except.ok (some ⟨some [42]⟩)
                  else Except.ok (some ⟨some []⟩))).ret
      = Except.ok (some (List.headD [] 7)) ∧
     (restore (some 7) ⟨PClass.txt2img, {}⟩ ⟨false, 0⟩ true
        [⟨9/10, ⟨1,1,2,2⟩, some (imageNew 2 2 0), 1/100⟩,
         ⟨8/10, ⟨0,0,1,1⟩, some (imageNew 2 2 0), 1/100⟩]
        (fun n => if n = 0 then Except.ok (some ⟨some [42]⟩)
                  else Except.ok (some ⟨some []⟩))).calls.length = 2) :=
  ⟨⟨rfl, by norm_num, by norm_num⟩,
   restore_returns_final_pass_output 7 42 [] ⟨PClass.txt2img, {}⟩ ⟨false, 0⟩
     (9/10) (8/10) ⟨1,1,2,2⟩ ⟨0,0,1,1⟩ (imageNew 2 2 0) (imageNew 2 2 0)
     (1/100) (1/100)
     (fun n => if n = 0 then Except.ok (some ⟨some [42]⟩)
               else Except.ok (some ⟨some []⟩))
     rfl (by norm_num) (by norm_num) (by norm_num) (by norm_num) rfl rfl⟩

/-- A run with two accepted faces in which the first pipeline invocation
produces image 42 and the second invocation completes but produces no
images. -/
def lastPassFailsRun : RestoreResult :=
  restore (some 7) ⟨PClass.txt2img, {}⟩ ⟨false, 0⟩ true
    [⟨9/10, ⟨1,1,2,2⟩, some (imageNew 2 2 0), 1/100⟩,
     ⟨8/10, ⟨0,0,1,1⟩, some (imageNew 2 2 0), 1/100⟩]
    (fun n => if n = 0 then Except.ok (some ⟨some [42]⟩)
              else Except.ok (some ⟨some []⟩))

/-- C2's counterexample: both passes run and the first pass produced image 42,
the second produced no output — yet `restore` returns the original image 7,
not 42, contradicting the claim that the result is the last successfully
produced pipeline output. -/
theorem lastPassFailsRun_returns_original :
    lastPassFailsRun.calls.length = 2 ∧ lastPassFailsRun.ret = .ok (some 7) ∧
    Except.ok (some 7) ≠ (Except.ok (some 42) : Except Unit (Option Nat)) := by
  refine ⟨?_, ?_, by decide⟩ <;> norm_num [lastPassFailsRun, restore, faceHiresLoop]

/-- A run with the guard unset, one accepted face, and a pipeline that raises
on its first invocation. -/
def pipelineRaisesRun : RestoreResult :=
  restore (some 7) ⟨PClass.txt2img, { extra := 5 }⟩ ⟨false, 3⟩ true
    [⟨9/10, ⟨1,1,2,2⟩, some (imageNew 2 2 0), 1/100⟩]
    (fun _ => Except.error ())

/-- C1 (refuted by the code): when the pipeline raises mid-loop, the exception
propagates while the context is still the transmuted img2img variant — the
guard and the per-region inpainting fields are still set and the process-wide
"apply overlay" option is still forced on, rather than their pre-call snapshot
values (class `txt2img`, overlay `false`): the restoration cleanup does not
run on the pipeline-failure path. -/
theorem pipelineRaisesRun_skips_cleanup :
    pipelineRaisesRun.ret = .error () ∧
    pipelineRaisesRun.p.cls = PClass.img2img ∧
    pipelineRaisesRun.p.fields.facehires = true ∧
    pipelineRaisesRun.p.fields.mask_blur = 10 ∧
    pipelineRaisesRun.p.fields.inpainting_fill = 1 ∧
    pipelineRaisesRun.opts.mask_apply_overlay = true ∧
    PClass.img2img ≠ PClass.txt2img ∧
    pipelineRaisesRun.calls.length = 1 := by
  refine ⟨?_, ?_, ?_, ?_, ?_, ?_, by decide, ?_⟩ <;>
    norm_num [pipelineRaisesRun, restore, faceHiresLoop, switch_class]
